import Mathlib

/-!
# AirportRanger — verification of the core pipeline

Shallow embedding of `src/airport_Search.py`. Numeric values (Python floats)
are idealised as rationals `ℚ`; pandas dataframes become lists of records;
exceptions become `Except` results. Geometry (shapely) is idealised exactly:
a point buffered by a positive distance is the closed planar disk of that
radius, and buffering a point by a distance ≤ 0 yields an empty polygon
(GEOS returns `POLYGON EMPTY` for zero or negative buffers of
zero-dimensional geometry), which intersects nothing.
-/

set_option autoImplicit false

namespace AirportRanger

/-- A 2D point in degree coordinates (shapely `Point(lon, lat)`: `x` is the
longitude, `y` the latitude). -/
structure Point where
  x : ℚ
  y : ℚ
deriving DecidableEq, Repr

/-- The Mach-to-knots constant `666.738661` appearing literally in
`calculate_speed`; as a rational it is exactly `666738661 / 1000000`. -/
def machToKts : ℚ := 666.738661

/-- Embeds `calculate_speed(speed_kts, speed_mach)`
(`src/airport_Search.py:14-18`): if `speed_kts == 0` return
`speed_mach * 666.738661`, else return `speed_kts`. -/
def calculate_speed (speed_kts speed_mach : ℚ) : ℚ :=
  if speed_kts = 0 then speed_mach * machToKts else speed_kts

/-- Embeds the range computation inlined in `main`
(`src/airport_Search.py:121-122`): `ftime_hr = ftime / 60;
distance = speed * ftime_hr`. -/
def compute_range (speed ftime : ℚ) : ℚ :=
  speed * (ftime / 60)

/-- The character set of Python `point_str.strip("POINT ()")`: `strip`
removes from BOTH ends of the string every character belonging to this
set, not the literal substring. -/
def stripChars : List Char := ['P', 'O', 'I', 'N', 'T', ' ', '(', ')']

/-- Python `s.strip(chars)` on a character list: drop the characters of
the set from the front, then from the back. -/
def pyStrip (cs : List Char) (l : List Char) : List Char :=
  ((l.dropWhile (fun c => decide (c ∈ cs))).reverse.dropWhile
    (fun c => decide (c ∈ cs))).reverse

/-- Whitespace recognised by Python `s.split()` with no argument (the
forms that matter for WKT strings). -/
def isSpaceChar (c : Char) : Bool :=
  decide (c = ' ' ∨ c = '\t' ∨ c = '\n' ∨ c = '\r')

/-- Helper of `pySplitWs`: tokenise, accumulating the current token in
reverse. -/
def splitAux (cur : List Char) : List Char → List (List Char)
  | [] => if cur = [] then [] else [cur.reverse]
  | c :: rest =>
    if isSpaceChar c then
      if cur = [] then splitAux [] rest
      else cur.reverse :: splitAux [] rest
    else splitAux (c :: cur) rest

/-- Python `s.split()` with no separator: split on runs of whitespace,
discarding empty pieces. -/
def pySplitWs (l : List Char) : List (List Char) :=
  splitAux [] l

/-- Numeric value of a decimal digit character, if it is one. -/
def digitVal? (c : Char) : Option Nat :=
  if '0' ≤ c ∧ c ≤ '9' then some (c.toNat - '0'.toNat) else none

/-- Accumulating base-10 parse of a digit run. -/
def digitsAux (acc : Nat) : List Char → Option Nat
  | [] => some acc
  | c :: rest =>
    match digitVal? c with
    | some d => digitsAux (acc * 10 + d) rest
    | none => none

/-- Parse a nonempty run of decimal digits into a natural number. -/
def digitsToNat? (l : List Char) : Option Nat :=
  match l with
  | [] => none
  | _ => digitsAux 0 l

/-- Parse an unsigned plain decimal literal (`12` or `12.5`) into the
exact rational it denotes. Python `float()` accepts further forms
(exponents, a trailing or leading dot); the claims quantify over the
literals this parser accepts, idealising IEEE doubles as rationals. -/
def parseUnsigned (l : List Char) : Option ℚ :=
  let ip := l.takeWhile (fun c => !decide (c = '.'))
  match l.dropWhile (fun c => !decide (c = '.')) with
  | [] => (digitsToNat? ip).map (fun n => (n : ℚ))
  | _ :: fp =>
    match digitsToNat? ip, digitsToNat? fp with
    | some i, some f => some ((i : ℚ) + (f : ℚ) / (10 : ℚ) ^ fp.length)
    | _, _ => none

/-- Python `float()` on a trimmed literal: an optional sign followed by an
unsigned decimal literal. -/
def parseFloat? (l : List Char) : Option ℚ :=
  match l with
  | '-' :: rest => (parseUnsigned rest).map (fun q => -q)
  | '+' :: rest => parseUnsigned rest
  | _ => parseUnsigned l

/-- Embeds `convert_to_point(point_str)` (`src/airport_Search.py:8-11`):
strip the characters of `"POINT ()"` from both ends, split on whitespace,
convert the two pieces with `float`, and build `Point(lon, lat)`. A wrong
number of pieces or an unparseable piece raises `ValueError`, modelled as
`none`. -/
def convert_to_point (s : String) : Option Point :=
  match (pySplitWs (pyStrip stripChars s.data)).map parseFloat? with
  | [some lon, some lat] => some ⟨lon, lat⟩
  | _ => none

/-- Characters allowed in the numeral pieces of a well-formed `POINT`
string: digits, a sign, a decimal point. None of them is whitespace or a
member of the strip set. -/
def numChar (c : Char) : Bool :=
  decide (('0' ≤ c ∧ c ≤ '9') ∨ c = '-' ∨ c = '+' ∨ c = '.')

/-- One raw row of the tabular source, with the columns the script touches:
the three category filters, the column drop, and the coordinate columns.
The `name` cell is already decoded to text; `astype(str)` is the identity
on such cells. -/
structure RawRow where
  ident : String
  type : String
  name : String
  latitude_deg : ℚ
  longitude_deg : ℚ
  municipality : String
  wikipedia_link : String
  keywords : String
deriving DecidableEq, Repr

/-- One record of the prepared GeoDataFrame: the kept columns plus the
derived `geometry` point. -/
structure AirportRecord where
  ident : String
  type : String
  name : String
  latitude_deg : ℚ
  longitude_deg : ℚ
  geometry : Point
deriving DecidableEq, Repr

/-- One `df.drop(df[df['type'] == t].index)` step: remove the rows of
category `t`. -/
def dropType (t : String) (df : List RawRow) : List RawRow :=
  df.filter (fun r => r.type ≠ t)

/-- The categories removed by `load_and_prepare_data`
(`src/airport_Search.py:27-30`). -/
def excludedTypes : List String :=
  ["heliport", "closed", "seaplane_base", "balloonport"]

/-- Normalisation of one kept row: drop `municipality`, `wikipedia_link`,
`keywords`, keep the rest, and derive `geometry` from
`points_from_xy(df['longitude_deg'], df['latitude_deg'])`. -/
def mkRecord (r : RawRow) : AirportRecord :=
  { ident := r.ident
    type := r.type
    name := r.name
    latitude_deg := r.latitude_deg
    longitude_deg := r.longitude_deg
    geometry := ⟨r.longitude_deg, r.latitude_deg⟩ }

/-- Embeds `load_and_prepare_data` (`src/airport_Search.py:21-47`) on an
already-parsed row list: the four sequential category drops, the column
drop, and the geometry construction. (`df.dropna()` on line 26 is not
`inplace` and has no effect.) -/
def load_and_prepare_data (rows : List RawRow) : List AirportRecord :=
  (dropType "balloonport"
    (dropType "seaplane_base"
      (dropType "closed"
        (dropType "heliport" rows)))).map mkRecord

/-- Squared Euclidean distance between two points in degree coordinates. -/
def distSq (p q : Point) : ℚ :=
  (p.x - q.x) ^ 2 + (p.y - q.y) ^ 2

/-- The result of `point.buffer(r)`: a polygon determined by its center and
the buffer distance. -/
structure BufferPoly where
  center : Point
  radius : ℚ
deriving DecidableEq, Repr

/-- shapely `point.buffer(radius)`. -/
def buffer (p : Point) (r : ℚ) : BufferPoly := ⟨p, r⟩

/-- shapely `geometry.intersects(circle)` for a point geometry. For a
positive buffer distance the buffer polygon is the (idealised) closed disk,
so it intersects exactly the points at squared distance at most `radius²`;
for a buffer distance ≤ 0 the buffer of a point is an empty polygon, which
intersects nothing. -/
def intersectsB (poly : BufferPoly) (q : Point) : Bool :=
  decide (0 < poly.radius ∧ distSq poly.center q ≤ poly.radius ^ 2)

/-- The Python exceptions the query can surface. `IndexError` is what
`.iloc[0]` raises on an empty selection; `ReferenceNotFoundError` is the
error named by the error taxonomy of the documentation, never raised by the
code. -/
inductive PyError where
  | indexError : PyError
  | referenceNotFoundError : PyError
deriving DecidableEq, Repr

/-- Embeds `find_airports_within_range(gdf, icao, distance)`
(`src/airport_Search.py:50-55`): take the first row whose `ident` equals
`icao` (`.iloc[0]`, an `IndexError` if the selection is empty), buffer its
geometry by `distance / 60`, and keep the rows whose geometry intersects
the buffer. -/
def find_airports_within_range (gdf : List AirportRecord) (icao : String)
    (distance : ℚ) : Except PyError (List AirportRecord) :=
  match gdf.filter (fun r => r.ident = icao) with
  | [] => .error .indexError
  | a :: _ =>
    let radius := distance / 60
    let circle := buffer a.geometry radius
    .ok (gdf.filter (fun r => intersectsB circle r.geometry))

/-- The full button-press pipeline of `main` (`src/airport_Search.py:119-128`):
resolve the speed, compute the distance, load the data, run the range query. -/
def searchPipeline (rows : List RawRow) (icao : String)
    (speed_kts speed_mach ftime : ℚ) : Except PyError (List AirportRecord) :=
  let speed := calculate_speed speed_kts speed_mach
  let distance := compute_range speed ftime
  find_airports_within_range (load_and_prepare_data rows) icao distance

/-- Membership in the closed planar disk of radius `r` around `c`, stated
from the words of the specification (a disk of that angular radius
centered on the reference position, in the same planar coordinate space):
a point is in the disk iff its distance from the center is at most `r`
(for `r < 0` the disk is empty). Squared form avoids square roots. -/
def inSpecDiskB (c : Point) (r : ℚ) (p : Point) : Bool :=
  decide (0 ≤ r ∧ distSq c p ≤ r ^ 2)

/-! ## Sample data

Concrete records used by witnesses and counterexamples, following the
end-to-end scenario of the specification: A at (0,0), B at (1,0), C at (10,0),
all of category `small_airport`. -/

/-- Airport A at longitude 0, latitude 0. -/
def recA : AirportRecord :=
  { ident := "AAAA", type := "small_airport", name := "Alpha"
    latitude_deg := 0, longitude_deg := 0, geometry := ⟨0, 0⟩ }

/-- Airport B at longitude 1, latitude 0. -/
def recB : AirportRecord :=
  { ident := "BBBB", type := "small_airport", name := "Bravo"
    latitude_deg := 0, longitude_deg := 1, geometry := ⟨1, 0⟩ }

/-- Airport C at longitude 10, latitude 0. -/
def recC : AirportRecord :=
  { ident := "CCCC", type := "small_airport", name := "Charlie"
    latitude_deg := 0, longitude_deg := 10, geometry := ⟨10, 0⟩ }

/-- A raw source row of a kept category. -/
def rawA : RawRow :=
  { ident := "AAAA", type := "small_airport", name := "Alpha"
    latitude_deg := 0, longitude_deg := 0
    municipality := "Alphaville", wikipedia_link := "", keywords := "" }

/-- A raw source row of an excluded category. -/
def rawH : RawRow :=
  { ident := "HHHH", type := "heliport", name := "Hotel"
    latitude_deg := 2, longitude_deg := 2
    municipality := "", wikipedia_link := "", keywords := "" }

/-! ## C3: speed resolution -/

/-- C3: for nonnegative inputs, `calculate_speed` returns `speed_kts`
unchanged whenever `speed_kts > 0`, and returns
`speed_mach * 666.738661` (exactly `666738661 / 1000000`) when
`speed_kts = 0`; in particular `calculate_speed 0 1 = 666.738661`. -/
theorem calculate_speed_spec (kts mach : ℚ) (hk : 0 ≤ kts) (hm : 0 ≤ mach) :
    (0 < kts → calculate_speed kts mach = kts) ∧
    (kts = 0 → calculate_speed kts mach = mach * (666738661 / 1000000)) ∧
    calculate_speed 0 1 = 666738661 / 1000000 := by
  refine ⟨fun hpos => ?_, fun hzero => ?_, ?_⟩
  · simp [calculate_speed, ne_of_gt hpos]
  · subst hzero
    simp [calculate_speed, machToKts]
    norm_num
  · simp [calculate_speed, machToKts]
    norm_num

/-- Witness for `calculate_speed_spec` at `kts = 120`, `mach = 2`. -/
theorem calculate_speed_spec_witness :
    calculate_speed 120 2 = 120 ∧ calculate_speed 0 1 = 666738661 / 1000000 :=
  ⟨(calculate_speed_spec 120 2 (by norm_num) (by norm_num)).1 (by norm_num),
   (calculate_speed_spec 0 2 (by norm_num) (by norm_num)).2.2⟩

/-! ## C4: range computation -/

/-- C4: the computed range is `speed * (ftime / 60)` nautical miles, is `0`
for duration `0`, and is linear in each argument separately (additive and
homogeneous in the speed and in the duration). -/
theorem compute_range_spec (s t s' t' c : ℚ) :
    compute_range s t = s * (t / 60) ∧
    compute_range s 0 = 0 ∧
    compute_range (s + s') t = compute_range s t + compute_range s' t ∧
    compute_range (c * s) t = c * compute_range s t ∧
    compute_range s (t + t') = compute_range s t + compute_range s t' ∧
    compute_range s (c * t) = c * compute_range s t := by
  refine ⟨rfl, ?_, ?_, ?_, ?_, ?_⟩ <;> simp [compute_range] <;> ring

/-! ## Helper lemmas about strings and lists -/

/-- A numeral character is not in the strip set. -/
theorem numChar_not_mem_strip (c : Char) (h : numChar c = true) :
    c ∉ stripChars := by
  intro hmem
  fin_cases hmem <;> exact absurd h (by decide)

/-- A numeral character is not whitespace. -/
theorem numChar_not_space (c : Char) (h : numChar c = true) :
    isSpaceChar c = false := by
  simp only [numChar, decide_eq_true_eq] at h
  simp only [isSpaceChar, decide_eq_false_iff_not]
  rintro (rfl | rfl | rfl | rfl) <;> exact absurd h (by decide)

/-- Dropping over a fully-satisfying front segment. -/
theorem dropWhile_append_of_all {α : Type} (p : α → Bool) (xs ys : List α)
    (h : ∀ x ∈ xs, p x = true) :
    (xs ++ ys).dropWhile p = ys.dropWhile p := by
  induction xs with
  | nil => rfl
  | cons x xs ih =>
    simp only [List.cons_append, List.dropWhile_cons,
      h x (List.mem_cons_self x xs), if_true]
    exact ih (fun y hy => h y (List.mem_cons_of_mem x hy))

/-- The strip scan stops at a numeral character. -/
theorem dropWhile_strip_cons (x : Char) (xs : List Char)
    (h : numChar x = true) :
    (x :: xs).dropWhile (fun c => decide (c ∈ stripChars)) = x :: xs := by
  simp [List.dropWhile_cons, decide_eq_false (numChar_not_mem_strip x h)]

/-- The tokeniser consumes a run of non-whitespace into the current token. -/
theorem splitAux_append_nonspace (s : List Char) (cur ys : List Char)
    (h : ∀ c ∈ s, isSpaceChar c = false) :
    splitAux cur (s ++ ys) = splitAux (s.reverse ++ cur) ys := by
  induction s generalizing cur with
  | nil => simp
  | cons c t ih =>
    have hc : isSpaceChar c = false := h c (List.mem_cons_self c t)
    simp only [List.cons_append, splitAux, hc, Bool.false_eq_true, if_false,
      List.append_eq]
    rw [ih (c :: cur) (fun x hx => h x (List.mem_cons_of_mem c hx))]
    simp

/-- Splitting two nonempty whitespace-free pieces around one space. -/
theorem pySplitWs_pair (s1 s2 : List Char) (n1 : s1 ≠ []) (n2 : s2 ≠ [])
    (h1 : ∀ c ∈ s1, isSpaceChar c = false)
    (h2 : ∀ c ∈ s2, isSpaceChar c = false) :
    pySplitWs (s1 ++ ' ' :: s2) = [s1, s2] := by
  unfold pySplitWs
  rw [splitAux_append_nonspace s1 [] (' ' :: s2) h1]
  rw [List.append_nil]
  rw [show splitAux s1.reverse (' ' :: s2) =
      if s1.reverse = [] then splitAux [] s2
      else s1.reverse.reverse :: splitAux [] s2 from by
    simp [splitAux, isSpaceChar]]
  rw [if_neg (by simp [n1])]
  rw [List.reverse_reverse]
  rw [show splitAux ([] : List Char) s2 = splitAux [] (s2 ++ []) from by
    rw [List.append_nil]]
  rw [splitAux_append_nonspace s2 [] [] h2]
  simp [splitAux, n2]

/-- Stripping the WKT decoration `POINT (…)` around two numeral pieces
leaves exactly the two pieces separated by the one inner space. -/
theorem pyStrip_wkt (s1 s2 : List Char) (n1 : s1 ≠ []) (n2 : s2 ≠ [])
    (c1 : ∀ c ∈ s1, numChar c = true) (c2 : ∀ c ∈ s2, numChar c = true) :
    pyStrip stripChars
      (['P', 'O', 'I', 'N', 'T', ' ', '('] ++ (s1 ++ ' ' :: (s2 ++ [')']))) =
      s1 ++ ' ' :: s2 := by
  obtain ⟨a1, t1, rfl⟩ := List.exists_cons_of_ne_nil n1
  have hrev : s2.reverse ≠ [] := fun h => n2 (by simpa using h)
  obtain ⟨a2, t2, h2r⟩ := List.exists_cons_of_ne_nil hrev
  have ha2 : a2 ∈ s2 := by
    rw [← List.mem_reverse, h2r]
    exact List.mem_cons_self a2 t2
  unfold pyStrip
  rw [dropWhile_append_of_all _ _ _ (by decide)]
  rw [show ((a1 :: t1) ++ ' ' :: (s2 ++ [')'])) =
      a1 :: (t1 ++ ' ' :: (s2 ++ [')'])) from rfl]
  rw [dropWhile_strip_cons a1 _ (c1 a1 (List.mem_cons_self a1 t1))]
  rw [show (a1 :: (t1 ++ ' ' :: (s2 ++ [')']))).reverse =
      [')'] ++ (s2.reverse ++ (' ' :: (a1 :: t1).reverse)) from by simp]
  rw [dropWhile_append_of_all _ _ _ (by decide)]
  rw [h2r, List.cons_append]
  rw [dropWhile_strip_cons a2 _ (c2 a2 ha2)]
  rw [← List.cons_append, ← h2r]
  simp

/-! ## C9: WKT point parsing -/

/-- C9: for every pair of coordinates given as nonempty numeral literals
`s1` (the longitude) and `s2` (the latitude) that `float` parses to `lon`
and `lat`, `convert_to_point` applied to the serialized string
`POINT (s1 s2)` yields the 2D point with x-coordinate `lon` and
y-coordinate `lat`. -/
theorem convert_to_point_wkt (s1 s2 : List Char) (lon lat : ℚ)
    (n1 : s1 ≠ []) (n2 : s2 ≠ [])
    (c1 : ∀ c ∈ s1, numChar c = true) (c2 : ∀ c ∈ s2, numChar c = true)
    (p1 : parseFloat? s1 = some lon) (p2 : parseFloat? s2 = some lat) :
    convert_to_point
        ( "POINT (" ++ String.mk s1 ++ " " ++ String.mk s2 ++ ")") =
      some ⟨lon, lat⟩ := by
  unfold convert_to_point
  rw [show ( "POINT (" ++ String.mk s1 ++ " " ++ String.mk s2 ++ ")").data =
      (((['P', 'O', 'I', 'N', 'T', ' ', '('] ++ s1) ++ [' ']) ++ s2) ++ [')']
    from rfl]
  rw [show (((['P', 'O', 'I', 'N', 'T', ' ', '('] ++ s1) ++ [' ']) ++ s2) ++
        [')'] =
      ['P', 'O', 'I', 'N', 'T', ' ', '('] ++ (s1 ++ ' ' :: (s2 ++ [')']))
    from by simp]
  rw [pyStrip_wkt s1 s2 n1 n2 c1 c2]
  rw [pySplitWs_pair s1 s2 n1 n2
    (fun c hc => numChar_not_space c (c1 c hc))
    (fun c hc => numChar_not_space c (c2 c hc))]
  rw [List.map_cons, List.map_cons, List.map_nil, p1, p2]

/-- Witness for `convert_to_point_wkt` on the concrete string
`POINT (12.5 -7.25)`. -/
theorem convert_to_point_wkt_witness :
    convert_to_point
        ( "POINT (" ++ String.mk ['1', '2', '.', '5'] ++ " " ++
          String.mk ['-', '7', '.', '2', '5'] ++ ")") =
      some ⟨25 / 2, -29 / 4⟩ :=
  convert_to_point_wkt ['1', '2', '.', '5'] ['-', '7', '.', '2', '5']
    (25 / 2) (-29 / 4) (by decide) (by decide) (by decide) (by decide)
    (by
      rw [show parseFloat? ['1', '2', '.', '5'] =
          some (((12 : ℕ) : ℚ) + ((5 : ℕ) : ℚ) / (10 : ℚ) ^ (1 : ℕ))
        from rfl]
      norm_num)
    (by
      rw [show parseFloat? ['-', '7', '.', '2', '5'] =
          some (-(((7 : ℕ) : ℚ) + ((25 : ℕ) : ℚ) / (10 : ℚ) ^ (2 : ℕ)))
        from rfl]
      norm_num)

/-! ## Helper lemmas about the query -/

/-- When the `ident` selection is empty, `.iloc[0]` raises `IndexError`. -/
theorem find_eq_of_filter_nil (gdf : List AirportRecord) (icao : String)
    (d : ℚ) (hfil : gdf.filter (fun r => r.ident = icao) = []) :
    find_airports_within_range gdf icao d = .error .indexError := by
  unfold find_airports_within_range
  rw [hfil]

/-- When the `ident` selection is nonempty, the query filters by
intersection with the buffer around the first match. -/
theorem find_eq_of_filter_cons (gdf : List AirportRecord) (icao : String)
    (d : ℚ) (a : AirportRecord) (rest : List AirportRecord)
    (hfil : gdf.filter (fun r => r.ident = icao) = a :: rest) :
    find_airports_within_range gdf icao d =
      .ok (gdf.filter
        (fun r => intersectsB (buffer a.geometry (d / 60)) r.geometry)) := by
  unfold find_airports_within_range
  rw [hfil]

/-- Membership in the four sequential category drops of the loader. -/
theorem mem_dropChain (rows : List RawRow) (r : RawRow) :
    r ∈ dropType "balloonport"
          (dropType "seaplane_base"
            (dropType "closed"
              (dropType "heliport" rows))) ↔
      r ∈ rows ∧ r.type ∉ excludedTypes := by
  simp only [dropType, List.mem_filter, decide_not, excludedTypes,
    List.mem_cons, List.mem_singleton, decide_eq_true_eq, Bool.not_eq_true',
    decide_eq_false_iff_not, List.not_mem_nil, or_false]
  tauto

/-! ## C5: loader category exclusion -/

/-- C5: the loaded collection contains no record whose category is
`heliport`, `closed`, `seaplane_base` or `balloonport`, and contains the
normalised form of every source row of any other category. -/
theorem load_excludes_and_keeps (rows : List RawRow) :
    (∀ rec ∈ load_and_prepare_data rows, rec.type ∉ excludedTypes) ∧
    (∀ raw ∈ rows, raw.type ∉ excludedTypes →
      mkRecord raw ∈ load_and_prepare_data rows) := by
  constructor
  · intro rec hrec
    simp only [load_and_prepare_data, List.mem_map] at hrec
    obtain ⟨raw, hraw, hmk⟩ := hrec
    rw [mem_dropChain] at hraw
    rw [← hmk]
    exact hraw.2
  · intro raw hraw hex
    exact List.mem_map_of_mem _ ((mem_dropChain rows raw).mpr ⟨hraw, hex⟩)

/-- Witness for `load_excludes_and_keeps`: on the two-row source
`[rawA, rawH]`, the kept-category row `rawA` survives loading. -/
theorem load_excludes_and_keeps_witness :
    mkRecord rawA ∈ load_and_prepare_data [rawA, rawH] :=
  (load_excludes_and_keeps [rawA, rawH]).2 rawA (by decide) (by decide)

/-! ## C2: missing reference identifier -/

/-- C2 (divergence witness): with a collection that has no record of
identifier `"ZZZZ"`, the query raises `IndexError` (from `.iloc[0]` on the
empty selection), not the `ReferenceNotFoundError` the specification
requires. -/
theorem find_missing_ident_raises_indexError :
    find_airports_within_range [recA, recB, recC] "ZZZZ" 10 =
      .error .indexError := by
  rfl

/-! ## C10: the query is a pure filter -/

/-- C10: every successful result of the query is a sublist of the input
collection — each returned record is one of the input records with all of
its fields unchanged — and the input itself is untouched (the embedding is
a pure function of the input list). -/
theorem find_pure_filter (gdf : List AirportRecord) (icao : String) (d : ℚ)
    (res : List AirportRecord)
    (h : find_airports_within_range gdf icao d = .ok res) :
    res.Sublist gdf ∧ ∀ r ∈ res, r ∈ gdf := by
  cases hfil : gdf.filter (fun r => r.ident = icao) with
  | nil =>
    rw [find_eq_of_filter_nil gdf icao d hfil] at h
    exact Except.noConfusion h
  | cons a rest =>
    rw [find_eq_of_filter_cons gdf icao d a rest hfil] at h
    simp only [Except.ok.injEq] at h
    subst h
    exact ⟨List.filter_sublist _, fun r hr => List.mem_of_mem_filter hr⟩

/-- Witness for `find_pure_filter` on `[recA, recB]` with the query at
`"AAAA"` and distance 60. -/
theorem find_pure_filter_witness :
    ([recA, recB] : List AirportRecord).Sublist [recA, recB] ∧
      ∀ r ∈ ([recA, recB] : List AirportRecord),
        r ∈ ([recA, recB] : List AirportRecord) :=
  find_pure_filter [recA, recB] "AAAA" 60 [recA, recB] (by
    rw [find_eq_of_filter_cons [recA, recB] "AAAA" 60 recA [] (by rfl)]
    simp only [List.filter_cons, List.filter_nil]
    norm_num [intersectsB, buffer, distSq, recA, recB])

/-! ## C6: inclusion of the reference airport -/

/-- C6 (amended): for every strictly positive distance, the reference
airport (the first record matching the identifier) is a member of its own
result set. -/
theorem find_reference_included (gdf : List AirportRecord) (icao : String)
    (d : ℚ) (a : AirportRecord) (rest : List AirportRecord)
    (hfil : gdf.filter (fun r => r.ident = icao) = a :: rest)
    (hd : 0 < d) :
    ∃ res, find_airports_within_range gdf icao d = .ok res ∧ a ∈ res := by
  refine ⟨_, find_eq_of_filter_cons gdf icao d a rest hfil, ?_⟩
  apply List.mem_filter.mpr
  refine ⟨?_, ?_⟩
  · have ha : a ∈ a :: rest := List.mem_cons_self a rest
    rw [← hfil] at ha
    exact List.mem_of_mem_filter ha
  · simp only [intersectsB, buffer, distSq, sub_self, decide_eq_true_eq]
    constructor
    · positivity
    · ring_nf
      positivity

/-- Witness for `find_reference_included`: querying `[recA, recB]` from
`"AAAA"` at distance 60 returns a set containing `recA`. -/
theorem find_reference_included_witness :
    ∃ res, find_airports_within_range [recA, recB] "AAAA" 60 = .ok res ∧
      recA ∈ res :=
  find_reference_included [recA, recB] "AAAA" 60 recA [] (by rfl)
    (by norm_num)

/-- C6 counterexample: at distance exactly 0 the zero-radius buffer is an
empty polygon, so the result set is empty and the reference airport
`recA` is NOT included, although the distance satisfies `0 ≤ 0` and the
reference identifier is present. -/
theorem find_reference_excluded_at_zero :
    (0 : ℚ) ≤ 0 ∧
    ([recA] : List AirportRecord).filter (fun r => r.ident = "AAAA") =
      [recA] ∧
    find_airports_within_range [recA] "AAAA" 0 = .ok [] := by
  refine ⟨le_refl 0, rfl, ?_⟩
  rw [find_eq_of_filter_cons [recA] "AAAA" 0 recA [] (by rfl)]
  simp only [List.filter_cons, List.filter_nil]
  norm_num [intersectsB, buffer, distSq, recA]

/-! ## C7: monotonicity in the distance -/

/-- C7: the query is monotone in the distance: for `0 ≤ d1 < d2`, every
record returned at distance `d1` is also returned at distance `d2`. -/
theorem find_monotone (gdf : List AirportRecord) (icao : String)
    (d1 d2 : ℚ) (h1 : 0 ≤ d1) (h12 : d1 < d2)
    (res1 res2 : List AirportRecord)
    (e1 : find_airports_within_range gdf icao d1 = .ok res1)
    (e2 : find_airports_within_range gdf icao d2 = .ok res2) :
    ∀ r ∈ res1, r ∈ res2 := by
  cases hfil : gdf.filter (fun r => r.ident = icao) with
  | nil =>
    rw [find_eq_of_filter_nil gdf icao d1 hfil] at e1
    exact Except.noConfusion e1
  | cons a rest =>
    rw [find_eq_of_filter_cons gdf icao d1 a rest hfil] at e1
    rw [find_eq_of_filter_cons gdf icao d2 a rest hfil] at e2
    simp only [Except.ok.injEq] at e1 e2
    subst e1
    subst e2
    intro r hr
    have hr' := List.mem_filter.mp hr
    apply List.mem_filter.mpr
    refine ⟨hr'.1, ?_⟩
    have hcond := hr'.2
    simp only [intersectsB, buffer, decide_eq_true_eq] at hcond ⊢
    obtain ⟨hpos, hle⟩ := hcond
    constructor
    · linarith
    · calc distSq a.geometry r.geometry ≤ (d1 / 60) ^ 2 := hle
        _ ≤ (d2 / 60) ^ 2 := by
            apply pow_le_pow_left₀ (le_of_lt hpos)
            linarith

/-- Witness for `find_monotone` on `[recA, recB, recC]` from `"AAAA"` with
distances 60 and 660: `recB` is in the distance-60 result `[recA, recB]`
and hence in the distance-660 result `[recA, recB, recC]`. -/
theorem find_monotone_witness :
    recB ∈ ([recA, recB, recC] : List AirportRecord) :=
  find_monotone [recA, recB, recC] "AAAA" 60 660 (by norm_num) (by norm_num)
    [recA, recB] [recA, recB, recC]
    (by
      rw [find_eq_of_filter_cons [recA, recB, recC] "AAAA" 60 recA []
        (by rfl)]
      simp only [List.filter_cons, List.filter_nil]
      norm_num [intersectsB, buffer, distSq, recA, recB, recC])
    (by
      rw [find_eq_of_filter_cons [recA, recB, recC] "AAAA" 660 recA []
        (by rfl)]
      simp only [List.filter_cons, List.filter_nil]
      norm_num [intersectsB, buffer, distSq, recA, recB, recC])
    recB (by decide)

/-! ## C8: determinism of the pipeline -/

/-- C8: loading the same source twice and running the same query on each
load yields identical collections and identical result sets — the whole
pipeline is a pure function of the source rows and the query, with no
hidden ordering or randomness. -/
theorem pipeline_deterministic (rows rows' : List RawRow) (icao : String)
    (d : ℚ) (h : rows = rows') :
    load_and_prepare_data rows = load_and_prepare_data rows' ∧
    find_airports_within_range (load_and_prepare_data rows) icao d =
      find_airports_within_range (load_and_prepare_data rows') icao d := by
  subst h
  exact ⟨rfl, rfl⟩

/-! ## C1: the result set is exactly a disk intersection -/

/-- C1 (amended): for every nonzero distance `d`, the query returns exactly
the records whose position lies in the closed planar disk of angular radius
`d / 60` degrees around the first record matching the reference identifier
(the disk is empty when `d < 0`). At `d = 0` the zero-radius buffer built
by the code is an empty polygon rather than the one-point disk, so that
case is excluded here and settled separately. -/
theorem find_within_range_disk (gdf : List AirportRecord) (icao : String)
    (d : ℚ) (hd : d ≠ 0) (a : AirportRecord) (rest : List AirportRecord)
    (hfil : gdf.filter (fun r => r.ident = icao) = a :: rest) :
    find_airports_within_range gdf icao d =
      .ok (gdf.filter (fun r => inSpecDiskB a.geometry (d / 60) r.geometry)) := by
  rw [find_eq_of_filter_cons gdf icao d a rest hfil]
  have hne : d / 60 ≠ 0 := div_ne_zero hd (by norm_num)
  congr 1
  apply List.filter_congr
  intro r _
  simp only [intersectsB, inSpecDiskB, buffer, decide_eq_decide]
  constructor
  · rintro ⟨hpos, hle⟩
    exact ⟨le_of_lt hpos, hle⟩
  · rintro ⟨hnn, hle⟩
    exact ⟨lt_of_le_of_ne hnn (Ne.symm hne), hle⟩

/-- Witness for `find_within_range_disk`: the distance-60 query from
`"AAAA"` on `[recA, recB, recC]` equals the filter by the radius-1 disk. -/
theorem find_within_range_disk_witness :
    find_airports_within_range [recA, recB, recC] "AAAA" 60 =
      .ok (([recA, recB, recC] : List AirportRecord).filter
        (fun r => inSpecDiskB recA.geometry (60 / 60) r.geometry)) :=
  find_within_range_disk [recA, recB, recC] "AAAA" 60 (by norm_num) recA []
    (by rfl)

/-- C1 counterexample: at distance 0 the disk of angular radius `0 / 60`
named by the claim contains the reference position itself, yet the query
returns the empty list — the result is not the disk intersection there. -/
theorem find_disk_mismatch_at_zero :
    inSpecDiskB recA.geometry (0 / 60) recA.geometry = true ∧
    find_airports_within_range [recA] "AAAA" 0 = .ok [] := by
  constructor
  · norm_num [inSpecDiskB, distSq, recA]
  · rw [find_eq_of_filter_cons [recA] "AAAA" 0 recA [] (by rfl)]
    simp only [List.filter_cons, List.filter_nil]
    norm_num [intersectsB, buffer, distSq, recA]

/-- Witness for `pipeline_deterministic` on the one-row source `[rawA]`. -/
theorem pipeline_deterministic_witness :
    load_and_prepare_data [rawA] = load_and_prepare_data [rawA] ∧
    find_airports_within_range (load_and_prepare_data [rawA]) "AAAA" 10 =
      find_airports_within_range (load_and_prepare_data [rawA]) "AAAA" 10 :=
  pipeline_deterministic [rawA] [rawA] "AAAA" 10 rfl

end AirportRanger
